import Mathlib

/-
Verification of the event-driven task subsystem: event publisher retry
policy, recurring-task next-occurrence computation, reminder scheduling,
audit consumer, WebSocket hub and event dispatcher, shallowly embedded
from the Python sources (backend/services/event_publisher.py,
backend/api/events.py, backend/api/websocket.py,
services/recurring-service/main.py, services/reminder-service/main.py,
services/audit-service/main.py).
-/

set_option maxRecDepth 8000

namespace TaskEvents

/-! ## Calendar dates

Shallow embedding of the `datetime.date` part of `datetime.datetime`
values used by the recurring service (time-of-day is irrelevant to the
properties below: `timedelta(days=…)` and `relativedelta(months=…)`
act on the date part). -/

/-- Calendar date (year, month 1..12, day 1..31). -/
structure Date where
  year : Nat
  month : Nat
  day : Nat
  deriving DecidableEq, Repr

/-- Gregorian leap-year test, as in Python's `calendar.isleap`. -/
def isLeapYear (y : Nat) : Bool :=
  (y % 4 == 0 && y % 100 != 0) || y % 400 == 0

/-- Number of days in a month of a given year. -/
def daysInMonth (y m : Nat) : Nat :=
  if m = 2 then (if isLeapYear y then 29 else 28)
  else if m = 4 ∨ m = 6 ∨ m = 9 ∨ m = 11 then 30
  else 31

/-- Successor day with month/year rollover. -/
def nextDay (d : Date) : Date :=
  if d.day < daysInMonth d.year d.month then ⟨d.year, d.month, d.day + 1⟩
  else if d.month < 12 then ⟨d.year, d.month + 1, 1⟩
  else ⟨d.year + 1, 1, 1⟩

/-- Embedding of `base + timedelta(days=n)`. -/
def addDays (d : Date) : Nat → Date
  | 0 => d
  | n + 1 => nextDay (addDays d n)

/-- Embedding of `base + relativedelta(months=n)` (dateutil semantics:
add `n` to the month with year carry, then clamp the day-of-month to
the length of the resulting month). -/
def addMonths (d : Date) (n : Nat) : Date :=
  let m0 := d.month - 1 + n
  let y := d.year + m0 / 12
  let m := m0 % 12 + 1
  ⟨y, m, min d.day (daysInMonth y m)⟩

/-- Strict `datetime` comparison `a < b` restricted to dates
(lexicographic on year, month, day). -/
def dateLt (a b : Date) : Bool :=
  if a.year < b.year then true
  else if b.year < a.year then false
  else if a.month < b.month then true
  else if b.month < a.month then false
  else decide (a.day < b.day)

/-! ## Recurring service: `calculate_next_occurrence`

From `services/recurring-service/main.py`, lines 110-137. -/

/-- Embedding of `calculate_next_occurrence(rule, interval, base_date)`;
`now` stands for `datetime.utcnow()` used when `base_date` is `None`. -/
def calculate_next_occurrence (rule : String) (interval : Nat)
    (base_date : Option Date) (now : Date) : Date :=
  let base := base_date.getD now
  if rule = "daily" then addDays base interval
  else if rule = "weekly" then addDays base (7 * interval)
  else if rule = "monthly" then addMonths base interval
  else addDays base interval

/-! ## Event publisher retry loop

From `backend/services/event_publisher.py`, `EventPublisher._publish`
(lines 65-141) and `_exponential_backoff` (lines 143-147). -/

/-- Outcome of one publish attempt against the bus: an HTTP response
with a status code, or one of the exception kinds the code
distinguishes (`httpx.ConnectError`, `httpx.TimeoutException`, any
other exception). -/
inductive BusResponse where
  | status (code : Nat)
  | connectError
  | timeoutError
  | otherError
  deriving DecidableEq, Repr

/-- Result of a `_publish` call: the returned boolean, the number of
attempts made, and the list of backoff sleeps performed (milliseconds,
in order). -/
structure PublishOutcome where
  success : Bool
  attempts : Nat
  delays : List Nat
  deriving DecidableEq, Repr

/-- Backoff delay of `_exponential_backoff(attempt)` in milliseconds:
`min(2 ** attempt * 0.5, 10)` seconds. -/
def backoffDelay (attempt : Nat) : Nat :=
  min (2 ^ attempt * 500) 10000

/-- One execution of the `for attempt in range(retries)` loop body of
`_publish`, starting at attempt index `attempt` with `fuel` loop
iterations remaining; `responses i` is what the bus does on attempt
`i`. Mirrors the source: 200/204 returns success; a 5xx response
sleeps and continues (also on the final attempt); any other status
returns failure at once; connect/timeout errors sleep only when
`attempt < retries - 1` and continue; any other exception returns
failure at once; an exhausted loop returns failure. -/
def publishGo (responses : Nat → BusResponse) : Nat → Nat → PublishOutcome
  | 0, attempt => ⟨false, attempt, []⟩
  | fuel + 1, attempt =>
    match responses attempt with
    | .status c =>
      if c = 200 ∨ c = 204 then ⟨true, attempt + 1, []⟩
      else if 500 ≤ c then
        let rest := publishGo responses fuel (attempt + 1)
        ⟨rest.success, rest.attempts, backoffDelay attempt :: rest.delays⟩
      else ⟨false, attempt + 1, []⟩
    | .connectError =>
      let rest := publishGo responses fuel (attempt + 1)
      if fuel = 0 then ⟨rest.success, rest.attempts, rest.delays⟩
      else ⟨rest.success, rest.attempts, backoffDelay attempt :: rest.delays⟩
    | .timeoutError =>
      let rest := publishGo responses fuel (attempt + 1)
      if fuel = 0 then ⟨rest.success, rest.attempts, rest.delays⟩
      else ⟨rest.success, rest.attempts, backoffDelay attempt :: rest.delays⟩
    | .otherError => ⟨false, attempt + 1, []⟩

/-- Embedding of `EventPublisher._publish(event, retries)`: when the
publisher is disabled it returns `True` with no bus contact, otherwise
it runs the retry loop from attempt 0. -/
def publish (enabled : Bool) (responses : Nat → BusResponse)
    (retries : Nat) : PublishOutcome :=
  if enabled then publishGo responses retries 0 else ⟨true, 0, []⟩

/-- A bus that times out on every attempt. -/
def allTimeout : Nat → BusResponse := fun _ => BusResponse.timeoutError

/-- A bus that refuses the connection on every attempt. -/
def allConnectFail : Nat → BusResponse := fun _ => BusResponse.connectError

/-- A bus that answers 500 on every attempt. -/
def all500 : Nat → BusResponse := fun _ => BusResponse.status 500

/-! ## Push Notification Hub (ConnectionManager)

From `backend/api/websocket.py`, lines 26-102 and 105-157. -/

/-- Client-side state of a WebSocket (`websocket.client_state`). -/
inductive WsState where
  | connected
  | disconnected
  deriving DecidableEq, Repr

/-- A WebSocket connection: an identity, its client state, and whether
`send_json` raises on it. -/
structure Conn where
  id : Nat
  state : WsState
  sendFails : Bool
  deriving DecidableEq, Repr

/-- The manager's `active_connections` map (`user_id -> set of
connections`), as an association list. -/
abbrev ConnMap := List (String × List Conn)

/-- Look up a user's connection set. -/
def lookupConns (m : ConnMap) (u : String) : Option (List Conn) :=
  (List.find? (fun p => p.1 = u) m).map (fun p => p.2)

/-- A connection is dead (marked for removal by the broadcast loop)
when the send was attempted (client state CONNECTED) and raised. -/
def deadPred (c : Conn) : Bool :=
  c.state = WsState.connected && c.sendFails

/-- One pass of the `for websocket in self.active_connections[user_id]`
loop of `broadcast_to_user`: returns (ids attempted, ids delivered,
connections marked dead). A connection whose client state is not
CONNECTED is skipped: no send attempt, and it is not marked dead. -/
def broadcastScan : List Conn → List Nat × List Nat × List Conn
  | [] => ([], [], [])
  | c :: rest =>
    let r := broadcastScan rest
    if c.state = WsState.connected then
      if c.sendFails then (c.id :: r.1, r.2.1, c :: r.2.2)
      else (c.id :: r.1, c.id :: r.2.1, r.2.2)
    else r

/-- Embedding of `ConnectionManager.broadcast_to_user(user_id,
message)`: returns (ids attempted, ids delivered, registry after the
post-iteration prune of dead connections). Unknown user: silent
no-op. -/
def broadcast_to_user (m : ConnMap) (u : String) :
    List Nat × List Nat × ConnMap :=
  match lookupConns m u with
  | none => ([], [], m)
  | some conns =>
    let r := broadcastScan conns
    (r.1, r.2.1,
      m.map (fun p =>
        if p.1 = u then (p.1, p.2.filter (fun c => decide (c ∉ r.2.2))) else p))

/-- Embedding of `ConnectionManager.connect`: add the connection under
the user's id, creating the entry if absent. -/
def connectReg (m : ConnMap) (u : String) (c : Conn) : ConnMap :=
  if (List.find? (fun p => p.1 = u) m).isSome then
    m.map (fun p => if p.1 = u then (p.1, c :: p.2) else p)
  else (u, [c]) :: m

/-! ## WebSocket endpoint handshake

From `backend/api/websocket.py`, `get_user_from_token` (93-102) and
`websocket_endpoint` (105-157). -/

/-- Embedding of `get_user_from_token`: `decodedSub` is the `sub`
claim produced by JWT decoding (`none` when decoding raises
`JWTError`); a missing or falsy (empty) `sub` yields `None`. -/
def get_user_from_token (decodedSub : Option String) : Option String :=
  match decodedSub with
  | some u => if u = "" then none else some u
  | none => none

/-- A server-to-client wire message whose `data` object holds a single
key/value pair, as sent by the handshake. -/
structure WireMessage where
  type : String
  dataKey : String
  dataVal : String
  deriving DecidableEq, Repr

/-- Result of the handshake part of `websocket_endpoint`. -/
inductive HandshakeResult where
  | closed (code : Nat) (reason : String)
  | established (msg : WireMessage)
  deriving DecidableEq, Repr

/-- Embedding of the handshake part of `websocket_endpoint`: an
invalid or missing credential closes with code 4001 and registers
nothing; otherwise the connection is registered and the
`connection.established` message is sent, carrying the resolved
identity under the data key `user_id`. -/
def websocket_endpoint (decodedSub : Option String) (m : ConnMap)
    (c : Conn) : HandshakeResult × ConnMap :=
  match get_user_from_token decodedSub with
  | none => (.closed 4001 "Invalid or missing token", m)
  | some u =>
    (.established ⟨"connection.established", "user_id", u⟩, connectReg m u c)

/-! ## Event Dispatcher

From `backend/api/events.py`, `handle_task_event` (lines 59-93). -/

/-- Parsed body of a task event delivered to the dispatcher; the
handler only looks at `type` and `data.userId`. -/
structure TaskEventBody where
  type : Option String
  dataUserId : Option String

/-- Embedding of `handle_task_event`: `req = none` models a body whose
JSON parsing raises (caught, acknowledged 200). Returns (HTTP status,
registry after any broadcast, ids of connections a send was attempted
on). A missing or falsy `userId` skips the broadcast; the status is
200 on every path. -/
def handle_task_event (req : Option TaskEventBody) (m : ConnMap) :
    Nat × ConnMap × List Nat :=
  match req with
  | none => (200, m, [])
  | some b =>
    match b.dataUserId with
    | some u =>
      if u = "" then (200, m, [])
      else
        let r := broadcast_to_user m u
        (200, r.2.2, r.1)
    | none => (200, m, [])

/-! ## Audit Consumer

From `services/audit-service/main.py`: `save_audit_entry` (59-83),
`get_audit_entry` (86-101), `handle_audit_event` (112-152),
`get_audit_entry_by_id` (174-182). -/

/-- Payload of a received envelope as the audit service reads it. -/
structure AuditPayload where
  taskId : Option Nat
  userId : Option String
  deriving DecidableEq, Repr

/-- An incoming CloudEvent envelope as read by `handle_audit_event`
(fields absent from the JSON body are `none`). -/
structure Envelope where
  type : Option String
  id : Option String
  time : Option String
  data : AuditPayload
  deriving DecidableEq, Repr

/-- Stored audit entry (model of the `AuditEntry` pydantic model). -/
structure AuditEntry where
  id : String
  task_id : Nat
  user_id : String
  event_type : String
  payload : AuditPayload
  created_at : String
  deriving DecidableEq, Repr

/-- The Dapr state store, keyed by string. -/
abbrev Store := List (String × AuditEntry)

/-- State-store upsert (`POST /v1.0/state/{store}` with one key). -/
def storePut (s : Store) (k : String) (v : AuditEntry) : Store :=
  (k, v) :: s

/-- State-store keyed lookup (`GET /v1.0/state/{store}/{key}`). -/
def storeGet (s : Store) (k : String) : Option AuditEntry :=
  (List.find? (fun p => p.1 = k) s).map (fun p => p.2)

/-- The audit entry `handle_audit_event` constructs from an envelope;
`freshId` models `f"evt-{uuid.uuid4()}"` and `nowTime` models
`datetime.utcnow()`, used only when the envelope lacks the field. -/
def mkAuditEntry (env : Envelope) (freshId nowTime : String) : AuditEntry :=
  ⟨"audit-" ++ env.id.getD freshId,
   env.data.taskId.getD 0,
   env.data.userId.getD "",
   env.type.getD "unknown",
   env.data,
   env.time.getD nowTime⟩

/-- Embedding of `handle_audit_event`: `req = none` models a raising
body parse (caught, acknowledged 200); `writeOk` is whether the state
store accepted the write. Returns (HTTP status, store afterwards); the
status is 200 on every path. -/
def handle_audit_event (s : Store) (req : Option Envelope)
    (freshId nowTime : String) (writeOk : Bool) : Nat × Store :=
  match req with
  | none => (200, s)
  | some env =>
    let entry := mkAuditEntry env freshId nowTime
    (200, if writeOk then storePut s entry.id entry else s)

/-- Embedding of `get_audit_entry`: keyed lookup returning `none` when
the store has no value (or the call raises). -/
def get_audit_entry (s : Store) (entryId : String) : Option AuditEntry :=
  storeGet s entryId

/-- Embedding of the `GET /api/audit/{entry_id}` endpoint
`get_audit_entry_by_id`: 404 with no body when the entry is absent,
200 with the entry otherwise. -/
def get_audit_entry_by_id (s : Store) (entryId : String) :
    Nat × Option AuditEntry :=
  match get_audit_entry s entryId with
  | some e => (200, some e)
  | none => (404, none)

/-! ## Reminder Scheduler

From `services/reminder-service/main.py`: `schedule_reminder`
(233-292), `cancel_reminder` (295-324), `handle_task_created` (91-115),
`handle_task_updated` (118-152), `handle_task_deleted` (155-176),
`handle_task_completed` (179-198). -/

/-- An HTTP call issued to the Dapr Jobs API: `cancel` is the DELETE
of a job name, `schedule` is the POST of a one-shot job with its
`dueTime` in seconds and its `repeats` count. -/
inductive JobCall where
  | cancel (jobName : String)
  | schedule (jobName : String) (dueSeconds : Nat) (repeats : Nat)
  deriving DecidableEq, Repr

/-- The deterministic job name `f"reminder-{task_id}"`. -/
def reminderJobName (taskId : Nat) : String :=
  "reminder-" ++ toString taskId

/-- Embedding of `schedule_reminder(task_id, user_id, title,
reminder_at)`: `now` is `datetime.utcnow().timestamp()` and `apiOk`
whether the Jobs API answers 200/201/204. Returns (Jobs-API calls
issued, returned boolean). With `delay = max(0, reminder_at - now)`,
a delay of 0 (reminder in the past or now) issues no call and returns
`False`; otherwise one POST of a one-shot (`repeats = 1`) job named
from the task id. -/
def schedule_reminder (taskId : Nat) (reminder_at now : Int)
    (apiOk : Bool) : List JobCall × Bool :=
  let delay : Int := max 0 (reminder_at - now)
  if delay ≤ 0 then ([], false)
  else ([.schedule (reminderJobName taskId) delay.toNat 1], apiOk)

/-- Embedding of `cancel_reminder(task_id)`: one DELETE of the job
name; `resp = none` models a connection error. The call is treated as
successful on 200, 204 and also 404 (cancelling a job that does not
exist is not an error). -/
def cancel_reminder (taskId : Nat) (resp : Option Nat) :
    List JobCall × Bool :=
  (.cancel (reminderJobName taskId) :: [],
    match resp with
    | some c => c = 200 || c = 204 || c = 404
    | none => false)

/-- Data of a `task.created` event as `handle_task_created` reads it
(`reminderAt` is a Unix timestamp). -/
structure CreatedEventData where
  taskId : Option Nat
  userId : Option String
  title : Option String
  reminderAt : Option Int

/-- Python truthiness of the three guards in `if reminder_at and
task_id and user_id:` (0, empty string and `None` are falsy). -/
def createdGuard (d : CreatedEventData) : Bool :=
  (match d.reminderAt with | some r => decide (r ≠ 0) | none => false) &&
  (match d.taskId with | some t => decide (t ≠ 0) | none => false) &&
  (match d.userId with | some u => decide (u ≠ "") | none => false)

/-- Embedding of `handle_task_created`: `req = none` models a raising
body parse. Returns (HTTP status, Jobs-API calls issued); the status
is 200 on every path. -/
def handle_task_created (req : Option CreatedEventData) (now : Int)
    (apiOk : Bool) : Nat × List JobCall :=
  match req with
  | none => (200, [])
  | some d =>
    if createdGuard d then
      (200, (schedule_reminder (d.taskId.getD 0) (d.reminderAt.getD 0)
        now apiOk).1)
    else (200, [])

/-- The reminder entry of a `task.updated` event's `changes` map:
`present` is whether the map contains a `reminder_at`/`reminderAt`
key, `newVal` the `new` field of that entry (`none` for JSON null or
a missing field). -/
structure ReminderChange where
  present : Bool
  newVal : Option Int

/-- Embedding of `handle_task_updated` for a body carrying `taskId`
and a `changes` map: when the change set includes the reminder field,
the existing job is cancelled first and a new job is scheduled only
when the new value is truthy; `req = none` models a raising body
parse. Returns (HTTP status, Jobs-API calls issued in order); the
status is 200 on every path. -/
def handle_task_updated (req : Option (Nat × ReminderChange))
    (now : Int) (cancelResp : Option Nat) (apiOk : Bool) :
    Nat × List JobCall :=
  match req with
  | none => (200, [])
  | some (taskId, ch) =>
    if ch.present then
      let cancelCalls := (cancel_reminder taskId cancelResp).1
      match ch.newVal with
      | some v =>
        if v ≠ 0 then
          (200, cancelCalls ++ (schedule_reminder taskId v now apiOk).1)
        else (200, cancelCalls)
      | none => (200, cancelCalls)
    else (200, [])

/-- Embedding of `handle_task_deleted`: cancels the task's job when a
truthy `taskId` is present; always acknowledges 200. -/
def handle_task_deleted (req : Option (Option Nat))
    (cancelResp : Option Nat) : Nat × List JobCall :=
  match req with
  | none => (200, [])
  | some none => (200, [])
  | some (some taskId) =>
    if taskId ≠ 0 then (200, (cancel_reminder taskId cancelResp).1)
    else (200, [])

/-- Embedding of the reminder service's `handle_task_completed`:
identical control flow to `handle_task_deleted`. -/
def handle_task_completed_reminder (req : Option (Option Nat))
    (cancelResp : Option Nat) : Nat × List JobCall :=
  match req with
  | none => (200, [])
  | some none => (200, [])
  | some (some taskId) =>
    if taskId ≠ 0 then (200, (cancel_reminder taskId cancelResp).1)
    else (200, [])

/-! ## Recurring-Task Generator

From `services/recurring-service/main.py`: `handle_task_completed`
(77-105) and `create_next_occurrence` (140-222). -/

/-- A date-bearing string field of a fetched task: either it parses
with `datetime.fromisoformat` or parsing raises (caught and
ignored). -/
inductive DateStr where
  | valid (d : Date)
  | malformed
  deriving DecidableEq, Repr

/-- The fields of the fetched original task that drive
`create_next_occurrence`'s control flow: the `due_date` field and the
`recurrence.end_date` field (`none` models an absent or falsy
value). -/
structure TaskDetails where
  due_date : Option DateStr
  recurrence_end_date : Option DateStr

/-- The `current_due` value computed by `create_next_occurrence`:
present only when the task has a `due_date` that parses. -/
def currentDue (t : TaskDetails) : Option Date :=
  match t.due_date with
  | some (.valid d) => some d
  | _ => none

/-- The `next_due` value of `create_next_occurrence`. -/
def nextDue (t : TaskDetails) (rule : String) (interval : Nat)
    (now : Date) : Date :=
  calculate_next_occurrence rule interval (currentDue t) now

/-- Outcome of `create_next_occurrence`: whether the task-creation
call was issued, and the returned boolean. -/
structure RecurringOutcome where
  createCalled : Bool
  result : Bool
  deriving DecidableEq, Repr

/-- Embedding of `create_next_occurrence(original_task_id, user_id,
rule, interval)`: `fetched` is what `get_task_details` returned,
`now` stands for `datetime.utcnow()` and `createResult` for what
`create_task_via_dapr` returns when invoked. A fetch failure returns
`False` with no creation call; a parsed recurrence end date strictly
before the computed next due date returns `True` with no creation
call; otherwise the creation call is issued. -/
def create_next_occurrence (fetched : Option TaskDetails)
    (rule : String) (interval : Nat) (now : Date)
    (createResult : Bool) : RecurringOutcome :=
  match fetched with
  | none => ⟨false, false⟩
  | some t =>
    match t.recurrence_end_date with
    | some (.valid endDate) =>
      if dateLt endDate (nextDue t rule interval now) then ⟨false, true⟩
      else ⟨true, createResult⟩
    | some .malformed => ⟨true, createResult⟩
    | none => ⟨true, createResult⟩

/-- Body of a `task.completed` event as the recurring service reads
it; `rule = none` models an absent or falsy `recurrence.rule`. -/
structure CompletedEventData where
  taskId : Option Nat
  userId : Option String
  isRecurring : Bool
  recurrence : Option (Option String × Nat)

/-- Embedding of the recurring service's `handle_task_completed`:
`req = none` models a raising body parse. Returns (HTTP status,
outcome of any `create_next_occurrence` call); the status is 200 on
every path. -/
def handle_task_completed_recurring (req : Option CompletedEventData)
    (fetched : Option TaskDetails) (now : Date) (createResult : Bool) :
    Nat × Option RecurringOutcome :=
  match req with
  | none => (200, none)
  | some d =>
    match d.isRecurring, d.recurrence with
    | true, some (some rule, interval) =>
      if rule ≠ "" then
        (200, some (create_next_occurrence fetched rule interval now
          createResult))
      else (200, none)
    | _, _ => (200, none)

/-- A bus that answers 400 on every attempt. -/
def all400 : Nat → BusResponse := fun _ => BusResponse.status 400

/-- Predicate picking out Jobs-API schedule (POST) calls. -/
def isScheduleCall : JobCall → Bool
  | .schedule _ _ _ => true
  | _ => false

end TaskEvents

namespace TaskEvents

/-! ## Theorems -/

/-- C1. The claim as stated is false: on a bus failing with a timeout
(equally, a connection error) on every attempt, the publisher does
sleep 0.5s and 1s between the three attempts, but performs no 2s sleep
after attempt 2; the claimed delay schedule 0.5s/1s/2s does not occur
on this input. -/
theorem publish_timeout_delay_counterexample :
    publish true allTimeout 3 = ⟨false, 3, [500, 1000]⟩ ∧
    (publish true allTimeout 3).delays ≠ [500, 1000, 2000] := by
  decide

/-- C1 (amended). If the bus answers 5xx on every attempt, a publish
call makes exactly 3 attempts, sleeps 0.5s, 1s and 2s (the last sleep
follows the final attempt) and returns failure with no fourth attempt;
if every attempt raises a connection or timeout error, it makes
exactly 3 attempts, sleeps 0.5s and 1s between attempts (no sleep
after the final attempt) and returns failure; a non-2xx, non-5xx
response (in particular any 4xx) on the first attempt returns failure
immediately with zero retries and no sleep. -/
theorem publish_retry_policy (r5 rconn r4 : Nat → BusResponse) (c4 : Nat)
    (h5 : ∀ i, i < 3 → ∃ c, r5 i = BusResponse.status c ∧ 500 ≤ c)
    (hconn : ∀ i, i < 3 →
      rconn i = BusResponse.connectError ∨ rconn i = BusResponse.timeoutError)
    (h40 : r4 0 = BusResponse.status c4) (h4a : 400 ≤ c4) (h4b : c4 < 500) :
    publish true r5 3 = ⟨false, 3, [500, 1000, 2000]⟩ ∧
    publish true rconn 3 = ⟨false, 3, [500, 1000]⟩ ∧
    publish true r4 3 = ⟨false, 1, []⟩ := by
  obtain ⟨c0, hr0, hc0⟩ := h5 0 (by norm_num)
  obtain ⟨c1, hr1, hc1⟩ := h5 1 (by norm_num)
  obtain ⟨c2, hr2, hc2⟩ := h5 2 (by norm_num)
  have hn0 : ¬(c0 = 200 ∨ c0 = 204) := by omega
  have hn1 : ¬(c1 = 200 ∨ c1 = 204) := by omega
  have hn2 : ¬(c2 = 200 ∨ c2 = 204) := by omega
  have hn4 : ¬(c4 = 200 ∨ c4 = 204) := by omega
  have hn5 : ¬(500 ≤ c4) := by omega
  refine ⟨?_, ?_, ?_⟩
  · simp [publish, publishGo, hr0, hr1, hr2, hn0, hn1, hn2, hc0, hc1, hc2,
      backoffDelay]
  · rcases hconn 0 (by norm_num) with h0 | h0 <;>
      rcases hconn 1 (by norm_num) with h1 | h1 <;>
        rcases hconn 2 (by norm_num) with h2 | h2 <;>
          simp [publish, publishGo, h0, h1, h2, backoffDelay]
  · simp [publish, publishGo, h40, hn4, hn5]

/-- C1 (witness). Concrete buses exercising the three branches. -/
theorem publish_retry_policy_witness :
    publish true all500 3 = ⟨false, 3, [500, 1000, 2000]⟩ ∧
    publish true allTimeout 3 = ⟨false, 3, [500, 1000]⟩ ∧
    publish true all400 3 = ⟨false, 1, []⟩ :=
  publish_retry_policy all500 allTimeout all400 400
    (fun _ _ => ⟨500, rfl, by norm_num⟩)
    (fun _ _ => Or.inr rfl)
    rfl (by norm_num) (by norm_num)

/-- C2. For every positive interval and base date,
`calculate_next_occurrence` adds `interval` days for rule `daily`,
`7 × interval` days for `weekly`, and `interval` calendar months for
`monthly`; adding a calendar month to Jan 31 yields Feb 28 (Feb 29 in
a leap year), not a fixed 30-day offset; and with no base date the
computation starts from the current time. -/
theorem next_occurrence_advances (n : Nat) (rule : String) (b now : Date)
    (_h : 0 < n) :
    calculate_next_occurrence "daily" n (some b) now = addDays b n ∧
    calculate_next_occurrence "weekly" n (some b) now = addDays b (7 * n) ∧
    calculate_next_occurrence "monthly" n (some b) now = addMonths b n ∧
    calculate_next_occurrence rule n none now =
      calculate_next_occurrence rule n (some now) now ∧
    calculate_next_occurrence "monthly" 1 (some ⟨2025, 1, 31⟩) now =
      ⟨2025, 2, 28⟩ ∧
    calculate_next_occurrence "monthly" 1 (some ⟨2024, 1, 31⟩) now =
      ⟨2024, 2, 29⟩ ∧
    calculate_next_occurrence "monthly" 1 (some ⟨2025, 1, 31⟩) now ≠
      addDays ⟨2025, 1, 31⟩ 30 := by
  refine ⟨?_, ?_, ?_, ?_, ?_, ?_, ?_⟩ <;>
    simp [calculate_next_occurrence] <;> decide

/-- C2 (witness). The statement at interval 1, a concrete base and a
concrete current time. -/
theorem next_occurrence_advances_witness :
    0 < 1 ∧
    (calculate_next_occurrence "daily" 1 (some ⟨2025, 3, 10⟩)
        ⟨2025, 6, 1⟩ = addDays ⟨2025, 3, 10⟩ 1 ∧
      calculate_next_occurrence "weekly" 1 (some ⟨2025, 3, 10⟩)
        ⟨2025, 6, 1⟩ = addDays ⟨2025, 3, 10⟩ (7 * 1) ∧
      calculate_next_occurrence "monthly" 1 (some ⟨2025, 3, 10⟩)
        ⟨2025, 6, 1⟩ = addMonths ⟨2025, 3, 10⟩ 1 ∧
      calculate_next_occurrence "monthly" 1 none ⟨2025, 6, 1⟩ =
        calculate_next_occurrence "monthly" 1 (some ⟨2025, 6, 1⟩)
          ⟨2025, 6, 1⟩ ∧
      calculate_next_occurrence "monthly" 1 (some ⟨2025, 1, 31⟩)
        ⟨2025, 6, 1⟩ = ⟨2025, 2, 28⟩ ∧
      calculate_next_occurrence "monthly" 1 (some ⟨2024, 1, 31⟩)
        ⟨2025, 6, 1⟩ = ⟨2024, 2, 29⟩ ∧
      calculate_next_occurrence "monthly" 1 (some ⟨2025, 1, 31⟩)
        ⟨2025, 6, 1⟩ ≠ addDays ⟨2025, 1, 31⟩ 30) :=
  ⟨by decide,
    next_occurrence_advances 1 "monthly" ⟨2025, 3, 10⟩ ⟨2025, 6, 1⟩
      (by decide)⟩

/-- C10. For every rule outside daily/weekly/monthly and every
positive interval and base, the next-occurrence computation does not
fail: it falls back to the daily behaviour, adding `interval` days. -/
theorem unknown_rule_defaults_daily (rule : String) (n : Nat)
    (b now : Date) (h1 : rule ≠ "daily") (h2 : rule ≠ "weekly")
    (h3 : rule ≠ "monthly") (_hn : 0 < n) :
    calculate_next_occurrence rule n (some b) now = addDays b n := by
  simp [calculate_next_occurrence, h1, h2, h3]

/-- C10 (witness). The rule `yearly` at interval 1 advances one day. -/
theorem unknown_rule_defaults_daily_witness :
    calculate_next_occurrence "yearly" 1 (some ⟨2025, 3, 10⟩)
      ⟨2025, 6, 1⟩ = addDays ⟨2025, 3, 10⟩ 1 :=
  unknown_rule_defaults_daily "yearly" 1 ⟨2025, 3, 10⟩ ⟨2025, 6, 1⟩
    (by decide) (by decide) (by decide) (by decide)

/-- Connections with CONNECTED client state. -/
def isConnected (c : Conn) : Bool := c.state == WsState.connected

/-- The attempted sends of the broadcast loop are exactly the
connections in CONNECTED client state, in order. -/
theorem broadcastScan_attempted (l : List Conn) :
    (broadcastScan l).1 = (l.filter isConnected).map Conn.id := by
  induction l with
  | nil => rfl
  | cons c rest ih =>
    by_cases hc : c.state = WsState.connected
    · by_cases hf : c.sendFails <;>
        simp [broadcastScan, hc, hf, isConnected, ih]
    · simp [broadcastScan, hc, isConnected, ih]

/-- The connections the broadcast loop marks dead are exactly those in
CONNECTED state whose send raises. -/
theorem broadcastScan_dead (l : List Conn) :
    (broadcastScan l).2.2 = l.filter deadPred := by
  induction l with
  | nil => rfl
  | cons c rest ih =>
    by_cases hc : c.state = WsState.connected
    · by_cases hf : c.sendFails <;>
        simp [broadcastScan, hc, hf, deadPred, ih]
    · simp [broadcastScan, hc, deadPred, ih]

/-- Pruning the dead connections from the set they were scanned from
keeps exactly the connections that were not marked dead. -/
theorem filter_not_mem_dead (l : List Conn) :
    l.filter (fun c => decide (c ∉ l.filter deadPred)) =
      l.filter (fun c => !deadPred c) := by
  apply List.filter_congr
  intro c hc
  by_cases hd : deadPred c = true <;> simp [List.mem_filter, hc, hd]

/-- Unfolding of a registry lookup over a cons cell. -/
theorem lookupConns_cons (k : String) (cs : List Conn) (rest : ConnMap)
    (v : String) :
    lookupConns ((k, cs) :: rest) v =
      if k = v then some cs else lookupConns rest v := by
  by_cases h : k = v <;> simp [lookupConns, List.find?_cons, h]

/-- Updating one user's connection list in the registry map changes no
other user's lookup, and transforms that user's lookup pointwise. -/
theorem lookupConns_map_update (m : ConnMap) (u v : String)
    (f : List Conn → List Conn) :
    lookupConns (m.map fun p => if p.1 = u then (p.1, f p.2) else p) v =
      if v = u then (lookupConns m v).map f else lookupConns m v := by
  induction m with
  | nil => by_cases hvu : v = u <;> simp [lookupConns, hvu]
  | cons p rest ih =>
    obtain ⟨k, cs⟩ := p
    by_cases hku : k = u <;> by_cases hkv : k = v
    · have hvu : v = u := hkv.symm.trans hku
      simp [lookupConns_cons, hku, hkv, hvu]
    · have hvu : ¬(v = u) := fun h => hkv (hku.trans h.symm)
      have huv : ¬(u = v) := fun h => hvu h.symm
      simp [lookupConns_cons, hku, hkv, hvu, huv, ih]
    · have hvu : ¬(v = u) := fun h => hku (hkv.trans h)
      simp [lookupConns_cons, hku, hkv, hvu]
    · simp [lookupConns_cons, hku, hkv, ih]

/-- The delivered sends of the broadcast loop are exactly the
CONNECTED connections whose send does not raise, in order. -/
theorem broadcastScan_delivered (l : List Conn) :
    (broadcastScan l).2.1 =
      (l.filter fun c => isConnected c && !c.sendFails).map Conn.id := by
  induction l with
  | nil => rfl
  | cons c rest ih =>
    by_cases hc : c.state = WsState.connected
    · by_cases hf : c.sendFails <;>
        simp [broadcastScan, hc, hf, isConnected, ih]
    · simp [broadcastScan, hc, isConnected, ih]

/-- C3. The claim as stated is false: a registered connection whose
client state is not CONNECTED receives no send attempt — broadcasting
to a user holding exactly one registered (but not CONNECTED)
connection attempts zero sends. -/
theorem broadcast_skips_counterexample :
    lookupConns [("A", [⟨1, WsState.disconnected, false⟩])] "A" =
      some [⟨1, WsState.disconnected, false⟩] ∧
    (broadcast_to_user [("A", [⟨1, WsState.disconnected, false⟩])] "A").1 =
      [] := by
  decide

/-- C3 (amended). Broadcast attempts a send to exactly the registered
connections of the target user whose client state is CONNECTED (in
registration order, continuing past failures), delivers to those whose
send does not raise, prunes from the user's set exactly the CONNECTED
connections whose send raised (after the iteration), leaves every
other user's set untouched, and is a silent no-op for a user with no
registered connections. -/
theorem broadcast_best_effort (m m2 : ConnMap) (u u2 v : String)
    (conns : List Conn)
    (hu : lookupConns m u = some conns) (hv : ¬(v = u))
    (hnone : lookupConns m2 u2 = none) :
    (broadcast_to_user m u).1 = (conns.filter isConnected).map Conn.id ∧
    (broadcast_to_user m u).2.1 =
      (conns.filter fun c => isConnected c && !c.sendFails).map Conn.id ∧
    lookupConns (broadcast_to_user m u).2.2 u =
      some (conns.filter fun c => !deadPred c) ∧
    lookupConns (broadcast_to_user m u).2.2 v = lookupConns m v ∧
    broadcast_to_user m2 u2 = ([], [], m2) := by
  refine ⟨?_, ?_, ?_, ?_, ?_⟩
  · simp [broadcast_to_user, hu, broadcastScan_attempted]
  · simp [broadcast_to_user, hu, broadcastScan_delivered]
  · simp only [broadcast_to_user, hu]
    rw [lookupConns_map_update m u u, if_pos rfl, hu]
    simp only [broadcastScan_dead]
    exact congrArg some (filter_not_mem_dead conns)
  · simp only [broadcast_to_user, hu]
    rw [lookupConns_map_update m u v, if_neg hv]
  · simp [broadcast_to_user, hnone]

/-- C3 (witness). User A holds one healthy and one failing CONNECTED
connection, user B one connection; broadcasting to A attempts both of
A's, delivers to the healthy one, prunes the failing one, leaves B
untouched; broadcasting to the unknown user C is a no-op. -/
theorem broadcast_best_effort_witness :
    (broadcast_to_user
        [("A", [⟨1, WsState.connected, false⟩, ⟨2, WsState.connected, true⟩]),
         ("B", [⟨3, WsState.connected, false⟩])] "A").1 =
      ([⟨1, WsState.connected, false⟩, ⟨2, WsState.connected, true⟩].filter
        isConnected).map Conn.id ∧
    (broadcast_to_user
        [("A", [⟨1, WsState.connected, false⟩, ⟨2, WsState.connected, true⟩]),
         ("B", [⟨3, WsState.connected, false⟩])] "A").2.1 =
      ([⟨1, WsState.connected, false⟩, ⟨2, WsState.connected, true⟩].filter
        fun c => isConnected c && !c.sendFails).map Conn.id ∧
    lookupConns (broadcast_to_user
        [("A", [⟨1, WsState.connected, false⟩, ⟨2, WsState.connected, true⟩]),
         ("B", [⟨3, WsState.connected, false⟩])] "A").2.2 "A" =
      some ([⟨1, WsState.connected, false⟩, ⟨2, WsState.connected, true⟩].filter
        fun c => !deadPred c) ∧
    lookupConns (broadcast_to_user
        [("A", [⟨1, WsState.connected, false⟩, ⟨2, WsState.connected, true⟩]),
         ("B", [⟨3, WsState.connected, false⟩])] "A").2.2 "B" =
      lookupConns
        [("A", [⟨1, WsState.connected, false⟩, ⟨2, WsState.connected, true⟩]),
         ("B", [⟨3, WsState.connected, false⟩])] "B" ∧
    broadcast_to_user
        [("A", [⟨1, WsState.connected, false⟩, ⟨2, WsState.connected, true⟩]),
         ("B", [⟨3, WsState.connected, false⟩])] "C" =
      ([], [],
        [("A", [⟨1, WsState.connected, false⟩, ⟨2, WsState.connected, true⟩]),
         ("B", [⟨3, WsState.connected, false⟩])]) :=
  broadcast_best_effort
    [("A", [⟨1, WsState.connected, false⟩, ⟨2, WsState.connected, true⟩]),
     ("B", [⟨3, WsState.connected, false⟩])]
    [("A", [⟨1, WsState.connected, false⟩, ⟨2, WsState.connected, true⟩]),
     ("B", [⟨3, WsState.connected, false⟩])]
    "A" "C" "B"
    [⟨1, WsState.connected, false⟩, ⟨2, WsState.connected, true⟩]
    (by decide) (by decide) (by decide)

/-- C4. When the fetched task carries a recurrence end date that
parses and the computed next due date lies strictly after it,
`create_next_occurrence` issues no task-creation call and still
returns success, and the completed-task handler for such an event
acknowledges 200 with that outcome. -/
theorem end_date_stops_recurrence (t : TaskDetails) (rule : String)
    (n : Nat) (now : Date) (cr : Bool) (endD : Date)
    (tid : Option Nat) (uid : Option String)
    (hend : t.recurrence_end_date = some (DateStr.valid endD))
    (hlt : dateLt endD (nextDue t rule n now) = true)
    (hrule : rule ≠ "") :
    create_next_occurrence (some t) rule n now cr = ⟨false, true⟩ ∧
    handle_task_completed_recurring
        (some ⟨tid, uid, true, some (some rule, n)⟩) (some t) now cr =
      (200, some ⟨false, true⟩) := by
  have h1 : create_next_occurrence (some t) rule n now cr = ⟨false, true⟩ := by
    simp [create_next_occurrence, hend, hlt]
  exact ⟨h1, by simp [handle_task_completed_recurring, hrule, h1]⟩

/-- C4 (witness). A daily task due Jan 10 with interval 30 and end
date Jan 15: the next occurrence Feb 9 exceeds the end date, so no
creation call is made and the handler acknowledges success. -/
theorem end_date_stops_recurrence_witness :
    create_next_occurrence
        (some ⟨some (DateStr.valid ⟨2025, 1, 10⟩),
               some (DateStr.valid ⟨2025, 1, 15⟩)⟩) "daily" 30
        ⟨2025, 6, 1⟩ false = ⟨false, true⟩ ∧
    handle_task_completed_recurring
        (some ⟨some 1, some "u", true, some (some "daily", 30)⟩)
        (some ⟨some (DateStr.valid ⟨2025, 1, 10⟩),
               some (DateStr.valid ⟨2025, 1, 15⟩)⟩) ⟨2025, 6, 1⟩ false =
      (200, some ⟨false, true⟩) :=
  end_date_stops_recurrence
    ⟨some (DateStr.valid ⟨2025, 1, 10⟩), some (DateStr.valid ⟨2025, 1, 15⟩)⟩
    "daily" 30 ⟨2025, 6, 1⟩ false ⟨2025, 1, 15⟩ (some 1) (some "u")
    rfl (by decide) (by decide)

/-- C5. The claim as stated is false: a `task.updated` event whose
reminder change carries the non-null new value 100 at current time 200
(a reminder in the past) cancels the job but issues no schedule call. -/
theorem reminder_update_counterexample :
    handle_task_updated (some (1, ⟨true, some 100⟩)) 200 (some 200) true =
      (200, [JobCall.cancel (reminderJobName 1)]) ∧
    List.countP isScheduleCall
      (handle_task_updated (some (1, ⟨true, some 100⟩)) 200
        (some 200) true).2 = 0 := by
  decide

/-- C5 (amended). When a `task.updated` change set includes the
reminder field, the first Jobs-API call is always the cancel of the
task's deterministic job name (and cancelling a non-existent job —
a 404 — is treated as success); a schedule call for the same job name
follows, after the cancel and never before it, exactly when the new
reminder value is non-null, non-zero and strictly in the future;
otherwise the cancel is the only call. Hence at most one outstanding
job per task. -/
theorem reminder_update_cancel_first (taskId : Nat) (ch : ReminderChange)
    (now v : Int) (cresp : Option Nat) (ok : Bool)
    (hp : ch.present = true) :
    (cancel_reminder taskId (some 404)).2 = true ∧
    ((handle_task_updated (some (taskId, ch)) now cresp ok).2).take 1 =
      [JobCall.cancel (reminderJobName taskId)] ∧
    (ch.newVal = none →
      (handle_task_updated (some (taskId, ch)) now cresp ok).2 =
        [JobCall.cancel (reminderJobName taskId)]) ∧
    (ch.newVal = some v → v = 0 ∨ v ≤ now →
      (handle_task_updated (some (taskId, ch)) now cresp ok).2 =
        [JobCall.cancel (reminderJobName taskId)]) ∧
    (ch.newVal = some v → v ≠ 0 → now < v →
      (handle_task_updated (some (taskId, ch)) now cresp ok).2 =
        [JobCall.cancel (reminderJobName taskId),
         JobCall.schedule (reminderJobName taskId) (v - now).toNat 1]) := by
  refine ⟨by simp [cancel_reminder], ?_, ?_, ?_, ?_⟩
  · cases hv : ch.newVal with
    | none => simp [handle_task_updated, hp, hv, cancel_reminder]
    | some w =>
      by_cases hw : w = 0
      · simp [handle_task_updated, hp, hv, hw, cancel_reminder]
      · simp [handle_task_updated, hp, hv, hw, cancel_reminder]
  · intro hv
    simp [handle_task_updated, hp, hv, cancel_reminder]
  · intro hv hz
    rcases hz with rfl | hle
    · simp [handle_task_updated, hp, hv, cancel_reminder]
    · by_cases hv0 : v = 0
      · simp [handle_task_updated, hp, hv, hv0, cancel_reminder]
      · have hd : max (0 : Int) (v - now) = 0 :=
          max_eq_left (by omega)
        simp [handle_task_updated, hp, hv, hv0, cancel_reminder,
          schedule_reminder, hd]
  · intro hv hv0 hlt
    have hd : max (0 : Int) (v - now) = v - now :=
      max_eq_right (by omega)
    have hng : ¬(v - now ≤ (0 : Int)) := by omega
    simp [handle_task_updated, hp, hv, hv0, cancel_reminder,
      schedule_reminder, hd, hng]

/-- C5 (witness). Task 1, reminder changed to 500 at current time 200:
the cancel precedes the schedule of the same job name. -/
theorem reminder_update_cancel_first_witness :
    (cancel_reminder 1 (some 404)).2 = true ∧
    ((handle_task_updated (some (1, ⟨true, some 500⟩)) 200
        (some 404) true).2).take 1 = [JobCall.cancel (reminderJobName 1)] ∧
    ((⟨true, some 500⟩ : ReminderChange).newVal = none →
      (handle_task_updated (some (1, ⟨true, some 500⟩)) 200
        (some 404) true).2 = [JobCall.cancel (reminderJobName 1)]) ∧
    ((⟨true, some 500⟩ : ReminderChange).newVal = some 500 →
      (500 : Int) = 0 ∨ (500 : Int) ≤ 200 →
      (handle_task_updated (some (1, ⟨true, some 500⟩)) 200
        (some 404) true).2 = [JobCall.cancel (reminderJobName 1)]) ∧
    ((⟨true, some 500⟩ : ReminderChange).newVal = some 500 →
      (500 : Int) ≠ 0 → (200 : Int) < 500 →
      (handle_task_updated (some (1, ⟨true, some 500⟩)) 200
        (some 404) true).2 =
        [JobCall.cancel (reminderJobName 1),
         JobCall.schedule (reminderJobName 1) ((500 : Int) - 200).toNat 1]) :=
  reminder_update_cancel_first 1 ⟨true, some 500⟩ 200 500 (some 404) true rfl

/-- C9. A reminder whose time is not in the future (delay ≤ 0) causes
no Jobs-API call, and the `task.created` handler still acknowledges
200 for every body; a future reminder registers exactly one one-shot
(`repeats = 1`) job named deterministically from the task id. -/
theorem past_reminder_skipped (taskId tid : Nat) (rAt rAt2 now : Int)
    (ok : Bool) (d : CreatedEventData) (uid : String) (ttl : Option String)
    (hle : rAt ≤ now) (hgt : now < rAt2)
    (htid : tid ≠ 0) (huid : uid ≠ "") (hr0 : rAt ≠ 0) :
    schedule_reminder taskId rAt now ok = ([], false) ∧
    (handle_task_created (some ⟨some tid, some uid, ttl, some rAt⟩)
      now ok).2 = [] ∧
    (handle_task_created (some ⟨some tid, some uid, ttl, some rAt⟩)
      now ok).1 = 200 ∧
    (handle_task_created (some d) now ok).1 = 200 ∧
    (schedule_reminder taskId rAt2 now ok).1 =
      [JobCall.schedule (reminderJobName taskId) (rAt2 - now).toNat 1] := by
  have hd : max (0 : Int) (rAt - now) = 0 := max_eq_left (by omega)
  have hsk : schedule_reminder taskId rAt now ok = ([], false) := by
    simp [schedule_reminder, hd]
  have hsk2 : ∀ t2 : Nat, schedule_reminder t2 rAt now ok = ([], false) := by
    intro t2
    simp [schedule_reminder, hd]
  have hguard : createdGuard ⟨some tid, some uid, ttl, some rAt⟩ = true := by
    simp [createdGuard, htid, huid, hr0]
  refine ⟨hsk, ?_, ?_, ?_, ?_⟩
  · simp [handle_task_created, hguard, hsk2]
  · simp [handle_task_created, hguard]
  · by_cases hg : createdGuard d = true <;> simp [handle_task_created, hg]
  · have hd2 : max (0 : Int) (rAt2 - now) = rAt2 - now :=
      max_eq_right (by omega)
    have hng : ¬(rAt2 - now ≤ (0 : Int)) := by omega
    simp [schedule_reminder, hd2, hng]

/-- C9 (witness). Task 7 with reminder 100 at current time 200 (past):
no call, handler acknowledges; reminder 300 (future): one one-shot
job. -/
theorem past_reminder_skipped_witness :
    schedule_reminder 5 100 200 true = ([], false) ∧
    (handle_task_created (some ⟨some 7, some "u", none, some 100⟩)
      200 true).2 = [] ∧
    (handle_task_created (some ⟨some 7, some "u", none, some 100⟩)
      200 true).1 = 200 ∧
    (handle_task_created (some ⟨none, none, none, none⟩) 200 true).1 =
      200 ∧
    (schedule_reminder 5 300 200 true).1 =
      [JobCall.schedule (reminderJobName 5) ((300 : Int) - 200).toNat 1] :=
  past_reminder_skipped 5 7 100 300 200 true ⟨none, none, none, none⟩
    "u" none (by decide) (by decide) (by decide) (by decide) (by decide)

/-- C6. Every event ingress handler — the dispatcher's task handler,
the audit consumer's handler, and the reminder service's four
handlers — returns 200 to the bus for every received envelope,
including unparseable bodies, missing user ids, failed state-store
writes and failed downstream calls, so the bus never redelivers. -/
theorem handlers_always_ack (req1 : Option TaskEventBody) (m : ConnMap)
    (s : Store) (req2 : Option Envelope) (fid nt : String) (w : Bool)
    (req3 : Option CreatedEventData) (now3 : Int) (ok3 : Bool)
    (req4 : Option (Nat × ReminderChange)) (now4 : Int)
    (cr4 : Option Nat) (ok4 : Bool)
    (req5 req6 : Option (Option Nat)) (cr5 cr6 : Option Nat)
    (req7 : Option CompletedEventData) (ft : Option TaskDetails)
    (now7 : Date) (res7 : Bool) :
    (handle_task_event req1 m).1 = 200 ∧
    (handle_audit_event s req2 fid nt w).1 = 200 ∧
    (handle_task_created req3 now3 ok3).1 = 200 ∧
    (handle_task_updated req4 now4 cr4 ok4).1 = 200 ∧
    (handle_task_deleted req5 cr5).1 = 200 ∧
    (handle_task_completed_reminder req6 cr6).1 = 200 ∧
    (handle_task_completed_recurring req7 ft now7 res7).1 = 200 := by
  refine ⟨?_, ?_, ?_, ?_, ?_, ?_, ?_⟩
  · cases req1 with
    | none => rfl
    | some b =>
      cases hb : b.dataUserId with
      | none => simp [handle_task_event, hb]
      | some u =>
        by_cases hu : u = "" <;> simp [handle_task_event, hb, hu]
  · cases req2 <;> simp [handle_audit_event]
  · cases req3 with
    | none => rfl
    | some d =>
      by_cases hg : createdGuard d = true <;>
        simp [handle_task_created, hg]
  · cases req4 with
    | none => rfl
    | some p =>
      obtain ⟨tid, ch⟩ := p
      by_cases hp : ch.present = true
      · cases hv : ch.newVal with
        | none => simp [handle_task_updated, hp, hv]
        | some w0 =>
          by_cases hw : w0 = 0 <;>
            simp [handle_task_updated, hp, hv, hw]
      · simp [handle_task_updated, hp]
  · cases req5 with
    | none => rfl
    | some o =>
      cases o with
      | none => rfl
      | some tid => by_cases h : tid = 0 <;> simp [handle_task_deleted, h]
  · cases req6 with
    | none => rfl
    | some o =>
      cases o with
      | none => rfl
      | some tid =>
        by_cases h : tid = 0 <;> simp [handle_task_completed_reminder, h]
  · cases req7 with
    | none => rfl
    | some d =>
      obtain ⟨tid, uid, irec, rec⟩ := d
      cases irec with
      | false => cases rec <;> rfl
      | true =>
        cases rec with
        | none => rfl
        | some p =>
          obtain ⟨orule, n⟩ := p
          cases orule with
          | none => rfl
          | some rule =>
            by_cases hr : rule = "" <;>
              simp [handle_task_completed_recurring, hr]

/-- Appending two strings appends their character lists, so a fixed
leading string cancels on the left. -/
theorem append_cancel_str (p a b : String) (h : p ++ a = p ++ b) :
    a = b := by
  cases p with | mk pd =>
  cases a with | mk ad =>
  cases b with | mk bd =>
  have hd : pd ++ ad = pd ++ bd := congrArg String.data h
  exact congrArg String.mk (List.append_cancel_left hd)

/-- C7. Two envelopes with the same `taskId` but different envelope
ids produce two distinct audit entries, each retrievable under its own
derived key `audit-<envelope id>`; looking up an id with no stored
entry returns 404 with no body and never raises. -/
theorem audit_entries_distinct (s : Store) (env1 env2 : Envelope)
    (i1 i2 f1 f2 t1 t2 : String) (s0 : Store) (k : String)
    (h1 : env1.id = some i1) (h2 : env2.id = some i2) (hne : ¬(i1 = i2))
    (_htask : env1.data.taskId = env2.data.taskId)
    (hmiss : storeGet s0 k = none) :
    storeGet (handle_audit_event
        (handle_audit_event s (some env1) f1 t1 true).2
        (some env2) f2 t2 true).2 ("audit-" ++ i1) =
      some (mkAuditEntry env1 f1 t1) ∧
    storeGet (handle_audit_event
        (handle_audit_event s (some env1) f1 t1 true).2
        (some env2) f2 t2 true).2 ("audit-" ++ i2) =
      some (mkAuditEntry env2 f2 t2) ∧
    ¬(mkAuditEntry env1 f1 t1 = mkAuditEntry env2 f2 t2) ∧
    get_audit_entry_by_id s0 k = (404, none) := by
  have hkey : ¬(("audit-" ++ i2 : String) = "audit-" ++ i1) :=
    fun h => hne (append_cancel_str "audit-" i1 i2 (id h.symm))
  refine ⟨?_, ?_, ?_, ?_⟩
  · simp [handle_audit_event, mkAuditEntry, h1, h2, storePut, storeGet,
      List.find?_cons, hkey]
  · simp [handle_audit_event, mkAuditEntry, h1, h2, storePut, storeGet,
      List.find?_cons]
  · intro h
    have hid := congrArg AuditEntry.id h
    simp [mkAuditEntry, h1, h2] at hid
    exact hne (append_cancel_str "audit-" i1 i2 hid)
  · simp [get_audit_entry_by_id, get_audit_entry, hmiss]

/-- C7 (witness). Two concrete envelopes about task 5 with ids e1 and
e2, consumed in sequence from an empty store. -/
theorem audit_entries_distinct_witness :
    storeGet (handle_audit_event
        (handle_audit_event []
          (some ⟨some "task.created", some "e1",
            some "2025-01-01T00:00:00Z", ⟨some 5, some "u"⟩⟩) "f1" "n1"
          true).2
        (some ⟨some "task.updated", some "e2",
          some "2025-01-02T00:00:00Z", ⟨some 5, some "u"⟩⟩) "f2" "n2"
        true).2 ("audit-" ++ "e1") =
      some (mkAuditEntry
        ⟨some "task.created", some "e1", some "2025-01-01T00:00:00Z",
          ⟨some 5, some "u"⟩⟩ "f1" "n1") ∧
    storeGet (handle_audit_event
        (handle_audit_event []
          (some ⟨some "task.created", some "e1",
            some "2025-01-01T00:00:00Z", ⟨some 5, some "u"⟩⟩) "f1" "n1"
          true).2
        (some ⟨some "task.updated", some "e2",
          some "2025-01-02T00:00:00Z", ⟨some 5, some "u"⟩⟩) "f2" "n2"
        true).2 ("audit-" ++ "e2") =
      some (mkAuditEntry
        ⟨some "task.updated", some "e2", some "2025-01-02T00:00:00Z",
          ⟨some 5, some "u"⟩⟩ "f2" "n2") ∧
    ¬(mkAuditEntry
        ⟨some "task.created", some "e1", some "2025-01-01T00:00:00Z",
          ⟨some 5, some "u"⟩⟩ "f1" "n1" =
      mkAuditEntry
        ⟨some "task.updated", some "e2", some "2025-01-02T00:00:00Z",
          ⟨some 5, some "u"⟩⟩ "f2" "n2") ∧
    get_audit_entry_by_id [] "audit-missing" = (404, none) :=
  audit_entries_distinct []
    ⟨some "task.created", some "e1", some "2025-01-01T00:00:00Z",
      ⟨some 5, some "u"⟩⟩
    ⟨some "task.updated", some "e2", some "2025-01-02T00:00:00Z",
      ⟨some 5, some "u"⟩⟩
    "e1" "e2" "f1" "f2" "n1" "n2" [] "audit-missing"
    rfl rfl (by decide) rfl rfl

/-- C8. The claim as stated is false: the `connection.established`
message carries the resolved identity under the data key `user_id`
(snake case), not `userId` — shown here for the credential resolving
the user alice. -/
theorem handshake_key_counterexample :
    (websocket_endpoint (some "alice") []
        ⟨7, WsState.connected, false⟩).1 ≠
      HandshakeResult.established
        ⟨"connection.established", "userId", "alice"⟩ ∧
    (websocket_endpoint (some "alice") []
        ⟨7, WsState.connected, false⟩).1 =
      HandshakeResult.established
        ⟨"connection.established", "user_id", "alice"⟩ := by
  decide

/-- A connection registered for a user is in that user's set. -/
theorem connectReg_registers (m : ConnMap) (u : String) (c : Conn) :
    c ∈ (lookupConns (connectReg m u c) u).getD [] := by
  by_cases h : (List.find? (fun p => p.1 = u) m).isSome
  · unfold connectReg
    rw [if_pos h]
    rw [lookupConns_map_update m u u (fun l => c :: l), if_pos rfl]
    obtain ⟨p, hp⟩ := Option.isSome_iff_exists.mp h
    simp [lookupConns, hp]
  · unfold connectReg
    rw [if_neg h]
    simp [lookupConns_cons]

/-- C8 (amended). A handshake whose credential resolves a (non-empty)
user identity sends `connection.established` with the identity under
the data key `user_id` and registers the connection under that user;
an invalid or missing credential closes the channel with code 4001 and
registers nothing. -/
theorem handshake_establishes (u : String) (badSub : Option String)
    (m : ConnMap) (c : Conn) (hu : ¬(u = ""))
    (hbad : get_user_from_token badSub = none) :
    websocket_endpoint (some u) m c =
      (HandshakeResult.established
        ⟨"connection.established", "user_id", u⟩, connectReg m u c) ∧
    c ∈ (lookupConns (websocket_endpoint (some u) m c).2 u).getD [] ∧
    websocket_endpoint badSub m c =
      (HandshakeResult.closed 4001 "Invalid or missing token", m) := by
  have hmain : websocket_endpoint (some u) m c =
      (HandshakeResult.established
        ⟨"connection.established", "user_id", u⟩, connectReg m u c) := by
    simp [websocket_endpoint, get_user_from_token, hu]
  refine ⟨hmain, ?_, ?_⟩
  · rw [hmain]
    exact connectReg_registers m u c
  · cases hb : badSub with
    | none => simp [websocket_endpoint, get_user_from_token]
    | some su =>
      rw [hb] at hbad
      simp [websocket_endpoint, hbad]

/-- C8 (witness). The credential resolving alice against an empty
registry, and a missing credential. -/
theorem handshake_establishes_witness :
    websocket_endpoint (some "alice") [] ⟨7, WsState.connected, false⟩ =
      (HandshakeResult.established
        ⟨"connection.established", "user_id", "alice"⟩,
       connectReg [] "alice" ⟨7, WsState.connected, false⟩) ∧
    (⟨7, WsState.connected, false⟩ : Conn) ∈
      (lookupConns (websocket_endpoint (some "alice") []
        ⟨7, WsState.connected, false⟩).2 "alice").getD [] ∧
    websocket_endpoint none [] ⟨7, WsState.connected, false⟩ =
      (HandshakeResult.closed 4001 "Invalid or missing token", []) :=
  handshake_establishes "alice" none [] ⟨7, WsState.connected, false⟩
    (by decide) rfl

end TaskEvents
